import Mathlib

/-!
Verification of the transaction-lifecycle coordinator of `vitest-drizzle-pg`.

The development shallowly embeds `DrizzleEnvironmentContext` (src/unnamed/part_006)
together with the published-context getter (src/src/setup.ts) and the
`RollbackError` / `EnvironmentState` data model (src/src/types.ts).

Modelling choices, each tied to the source:

* Promises.  The coordinator manipulates exactly one stored promise, the
  post-`.catch` transaction-opening promise (`this.state.transactionPromise`);
  its status is embedded as `PromiseStatus` (`pending` / `resolved` /
  `rejected e`).  The unconditional `.catch(() => {...})` at the transaction
  call site is the function `applyCatch`, which turns any rejection into a
  resolution.

* The database.  The external database exposes a callback-scoped
  `transaction` API (src/src/types.ts, `TransactionCapableClient`): it begins
  a transaction, hands a transactional handle to the callback, commits on
  success and rolls back on failure.  A transactional handle is embedded as a
  numeric id; an open database-level transaction is a pair `(id, work)` where
  `work` is the data visible through (and written through) that handle,
  snapshotted from the committed data when the transaction begins.  Rolling
  back discards `work`; nothing in the coordinator ever commits.

* User routines.  The optional per-test seed routine (`options.setup`) and
  pre-rollback cleanup routine (`options.teardown`) act through the handle:
  they are embedded as functions from the handle and its working data to
  `Except ε Data` — they may rewrite the in-transaction data or throw.

* Control flow.  JavaScript's single cooperative execution context lets each
  public coordinator operation be embedded as a state transformer on a
  `World`; the points at which `beginTransaction`'s outer promise settles (or
  fails to settle) are captured by `BeginOutcome`, and the ordering of the
  micro-steps inside the transaction callback is captured by an appended
  event trace.
-/

set_option maxHeartbeats 1000000

namespace VitestDrizzle

/-- Errors that can travel through the promise chains of the coordinator.
`rollbackError` is the manufactured `RollbackError` of src/src/types.ts
("Transaction rollback requested"); `notInitialized` is the
`'Database client is not initialized. Call setup() first.'` error thrown at
the top of `beginTransaction`; `userError e` is an error thrown by a
user-supplied routine (seed or cleanup). -/
inductive JsError (ε : Type) where
  | rollbackError : JsError ε
  | notInitialized : JsError ε
  | userError : ε → JsError ε
deriving DecidableEq, Repr

/-- Settlement status of a promise. -/
inductive PromiseStatus (ε : Type) where
  | pending : PromiseStatus ε
  | resolved : PromiseStatus ε
  | rejected : JsError ε → PromiseStatus ε
deriving DecidableEq, Repr

/-- The unconditional swallow handler `.catch(() => { ... })` attached to the
transaction-opening call in `beginTransaction`: any rejection reaching it is
converted into a resolution; a pending or resolved promise is unaffected. -/
def applyCatch {ε : Type} : PromiseStatus ε → PromiseStatus ε
  | .rejected _ => .resolved
  | p => p

/-- Observable micro-steps inside the coordinator, in the order the code
performs them; used to state ordering claims. -/
inductive Event (ε : Type) where
  | txStarted : Nat → Event ε
  | seedCompleted : Nat → Event ε
  | outerResolved : Nat → Event ε
  | triggerInstalled : Nat → Event ε
  | cleanupRan : Nat → Event ε
  | triggerInvoked : Nat → Event ε
deriving DecidableEq, Repr

/-- Mirror of `EnvironmentState` (src/src/types.ts).  `db` records whether the
client is stored (`this.state.db !== null`); `currentTransaction` holds the
id of the active transactional handle; `transactionPromise` holds the status
of the stored post-catch transaction-opening promise; `resolveTransaction`
holds, when installed, the id of the transaction whose pinned inner promise
the trigger closure would reject; `rollbackError` mirrors the (never written)
field of the same name. -/
structure EnvironmentState (ε : Type) where
  db : Bool
  currentTransaction : Option Nat
  transactionPromise : Option (PromiseStatus ε)
  resolveTransaction : Option Nat
  rollbackError : Option ε
deriving DecidableEq, Repr

/-- Mirror of `DrizzleEnvironmentOptions` (src/src/types.ts), restricted to
what the coordinator consumes.  The client-provider is modelled by the
external database already present in the `World`; `setup` is the optional
per-test seed routine, `teardown` the optional pre-rollback cleanup routine
(each acting through a handle on the transaction's working data, possibly
throwing), and `disconnect` records whether a disconnect routine is
configured. -/
structure DrizzleEnvironmentOptions (Data ε : Type) where
  setup : Option (Nat → Data → Except ε Data) := none
  teardown : Option (Nat → Data → Except ε Data) := none
  disconnect : Bool := false

/-- The whole observable world: the external database (committed contents and
database-level open transactions), the coordinator's private `state`, and the
observable side channels (disconnect invocations, `console.error` logs from
cleanup failures, `console.warn` count from the published-context getter,
errors intercepted by the unconditional swallow handler, and the event
trace). -/
structure World (Data ε : Type) where
  committed : Data
  openTxs : List (Nat × Data)
  nextTx : Nat
  state : EnvironmentState ε
  disconnectCalls : Nat
  loggedErrors : List ε
  warnCount : Nat
  swallowed : List (JsError ε)
  events : List (Event ε)
deriving DecidableEq, Repr

/-- The world right after `new DrizzleEnvironmentContext(options)`, whose
constructor sets every field of `this.state` to null, next to an external
database with committed contents `d` and no open transaction. -/
def initialWorld {Data ε : Type} (d : Data) : World Data ε :=
  { committed := d
    openTxs := []
    nextTx := 0
    state := { db := false
               currentTransaction := none
               transactionPromise := none
               resolveTransaction := none
               rollbackError := none }
    disconnectCalls := 0
    loggedErrors := []
    warnCount := 0
    swallowed := []
    events := [] }

/-- Working data of the database-level open transaction with handle `id`. -/
def lookupTx {Data : Type} (l : List (Nat × Data)) (id : Nat) : Option Data :=
  (l.find? (fun p => p.1 = id)).map Prod.snd

/-- Replace the working data of the open transaction with handle `id`. -/
def updateTx {Data : Type} (l : List (Nat × Data)) (id : Nat) (work : Data) :
    List (Nat × Data) :=
  l.map (fun p => if p.1 = id then (id, work) else p)

/-- Run the optional seed routine (`if (this.options.setup) await
this.options.setup(tx)`): absent, it succeeds without touching the working
data. -/
def runSeed {Data ε : Type} (seed : Option (Nat → Data → Except ε Data))
    (id : Nat) (d : Data) : Except ε Data :=
  match seed with
  | none => .ok d
  | some f => f id d

/-- How the promise returned by `beginTransaction` settles.
`resolvedWith id`: `resolveOuter(tx)` was reached and the caller receives the
handle.  `threw e`: the async method threw before entering the promise
executor, so its promise rejects with `e`.  `neverSettles`: `resolveOuter`
was never reached and no rejection path exists for the outer promise (its
executor installs no reject and the transaction call's rejection is consumed
by the swallow handler), so the caller waits forever. -/
inductive BeginOutcome (ε : Type) where
  | resolvedWith : Nat → BeginOutcome ε
  | threw : JsError ε → BeginOutcome ε
  | neverSettles : BeginOutcome ε
deriving DecidableEq, Repr

namespace DrizzleEnvironmentContext

variable {Data ε : Type}

/-- `setup()`: `this.state.db = (await this.options.client()) as TDatabase` —
the client handle is stored. -/
def setup (w : World Data ε) : World Data ε :=
  { w with state := { w.state with db := true } }

/-- `teardown()`: `if (this.options.disconnect) await this.options.disconnect();
this.state.db = null;` — note the disconnect routine is invoked whenever it is
configured, with no test of whether a client is stored. -/
def teardown (opts : DrizzleEnvironmentOptions Data ε) (w : World Data ε) :
    World Data ε :=
  let w1 := if opts.disconnect
            then { w with disconnectCalls := w.disconnectCalls + 1 }
            else w
  { w1 with state := { w1.state with db := false } }

/-- `beginTransaction()`.  If no client is stored, the method throws the
initialization-order error.  Otherwise `this.state.transactionPromise =
this.state.db!.transaction(cb).catch(() => {})` is installed and the
database begins a transaction with a fresh handle `id := w.nextTx`, whose working data
snapshots the committed data.  Inside the callback, in source order:
`this.state.currentTransaction = tx`; the optional seed routine runs; on seed
success `resolveOuter(tx)` fires and the callback returns the pinned inner
promise whose `reject` is captured in `this.state.resolveTransaction`, so the
stored transaction-opening promise stays pending and the database-level
transaction stays open.  On seed failure the callback rejects, the database
rolls the fresh transaction back, the transaction call rejects with the seed
error, the swallow handler absorbs it (so the stored promise resolves), and —
since `resolveOuter` was never called and the outer executor installs no
reject — the outer promise never settles; `currentTransaction` keeps the
stale handle and no trigger is installed. -/
def beginTransaction (opts : DrizzleEnvironmentOptions Data ε)
    (w : World Data ε) : BeginOutcome ε × World Data ε :=
  if w.state.db = false then
    (.threw .notInitialized, w)
  else
    match runSeed opts.setup w.nextTx w.committed with
    | .ok work =>
        (.resolvedWith w.nextTx,
          { w with
              nextTx := w.nextTx + 1
              openTxs := w.openTxs ++ [(w.nextTx, work)]
              state := { w.state with
                           currentTransaction := some w.nextTx
                           transactionPromise := some .pending
                           resolveTransaction := some w.nextTx }
              events := w.events ++ [.txStarted w.nextTx, .seedCompleted w.nextTx,
                                     .outerResolved w.nextTx, .triggerInstalled w.nextTx] })
    | .error e =>
        (.neverSettles,
          { w with
              nextTx := w.nextTx + 1
              state := { w.state with
                           currentTransaction := some w.nextTx
                           transactionPromise :=
                             some (applyCatch (.rejected (.userError e))) }
              swallowed := w.swallowed ++ [.userError e]
              events := w.events ++ [.txStarted w.nextTx] })

/-- First block of `rollbackTransaction()`: `if (this.options.teardown &&
this.state.currentTransaction) { try { await this.options.teardown(...) }
catch (error) { console.error(...) } }`.  The cleanup routine acts on the
active handle's working data; an error it throws is logged and swallowed.
When the handle no longer denotes a database-level open transaction (the
stale-handle state left by a seed failure, in which `beginTransaction` never
settled), there is no working data to act on; no claim exercises this
corner and the model leaves the world unchanged there. -/
def rollbackStep1 (opts : DrizzleEnvironmentOptions Data ε)
    (w : World Data ε) : World Data ε :=
  match opts.teardown, w.state.currentTransaction with
  | some td, some id =>
      match lookupTx w.openTxs id with
      | some work =>
          match td id work with
          | .ok work' =>
              { w with openTxs := updateTx w.openTxs id work'
                       events := w.events ++ [.cleanupRan id] }
          | .error e =>
              { w with loggedErrors := w.loggedErrors ++ [e] }
      | none => w
  | _, _ => w

/-- Second block of `rollbackTransaction()`: `if (this.state.resolveTransaction)
{ this.state.resolveTransaction(); this.state.resolveTransaction = null; }`.
Invoking the trigger rejects the pinned inner promise with `new
RollbackError()`; the callback's promise therefore rejects, the database
rolls the open transaction back (its working data is discarded, the committed
data is untouched), the transaction-opening call rejects with the
`RollbackError`, and the swallow handler absorbs that rejection, settling the
stored transaction-opening promise as resolved. -/
def rollbackStep2 (w : World Data ε) : World Data ε :=
  match w.state.resolveTransaction with
  | some id =>
      { w with
          openTxs := w.openTxs.filter (fun p => p.1 ≠ id)
          state := { w.state with
                       resolveTransaction := none
                       transactionPromise :=
                         w.state.transactionPromise.map
                           (fun _ => applyCatch (.rejected .rollbackError)) }
          swallowed := w.swallowed ++ [.rollbackError]
          events := w.events ++ [.triggerInvoked id] }
  | none => w

/-- Third block of `rollbackTransaction()`: `if (this.state.transactionPromise)
{ try { await this.state.transactionPromise } catch {} ;
this.state.transactionPromise = null; }` — the stored promise's completion is
awaited (a rejection would be caught and ignored) and the field is cleared.
The returned `Except` mirrors the settlement of `rollbackTransaction`'s own
promise: no path rejects. -/
def rollbackStep3 (w : World Data ε) : Except (JsError ε) Unit × World Data ε :=
  match w.state.transactionPromise with
  | some _ =>
      (.ok (), { w with state := { w.state with transactionPromise := none } })
  | none => (.ok (), w)

/-- `rollbackTransaction()`: the three blocks above followed by the final
`this.state.currentTransaction = null`. -/
def rollbackTransaction (opts : DrizzleEnvironmentOptions Data ε)
    (w : World Data ε) : Except (JsError ε) Unit × World Data ε :=
  ((rollbackStep3 (rollbackStep2 (rollbackStep1 opts w))).1,
   { (rollbackStep3 (rollbackStep2 (rollbackStep1 opts w))).2 with
       state := { (rollbackStep3 (rollbackStep2 (rollbackStep1 opts w))).2.state with
                    currentTransaction := none } })

/-- `getCurrentTransaction()`: `return this.state.currentTransaction`. -/
def getCurrentTransaction (w : World Data ε) : Option Nat :=
  w.state.currentTransaction

/-- `getDatabase()`: whether `this.state.db` is a stored client. -/
def getDatabase (w : World Data ε) : Bool :=
  w.state.db

end DrizzleEnvironmentContext

/-- The `vitestDrizzle.client` getter of src/src/setup.ts: `const tx =
context.getCurrentTransaction(); if (!tx) { console.warn(...) } return tx` —
with no active transaction it warns and yields the not-ready value. -/
def clientGet {Data ε : Type} (w : World Data ε) : Option Nat × World Data ε :=
  match DrizzleEnvironmentContext.getCurrentTransaction w with
  | none => (none, { w with warnCount := w.warnCount + 1 })
  | some t => (some t, w)

/-- A test body writing through the transactional handle `id`: the write `f`
acts on the working data of that open transaction only. -/
def writeThroughTx {Data ε : Type} (id : Nat) (f : Data → Data)
    (w : World Data ε) : World Data ε :=
  { w with openTxs := w.openTxs.map (fun p => if p.1 = id then (p.1, f p.2) else p) }

/-- A sequence of test-body writes through handle `id`. -/
def applyWrites {Data ε : Type} (id : Nat) (fs : List (Data → Data))
    (w : World Data ε) : World Data ε :=
  fs.foldl (fun w f => writeThroughTx id f w) w

end VitestDrizzle

namespace VitestDrizzle

/-- The lockstep invariant of the data model: the active transaction handle,
the pending settlement and the forced-failure trigger are all present
together or all absent together. -/
def lockstep {Data ε : Type} (w : World Data ε) : Prop :=
  (w.state.currentTransaction.isSome = true ∧
   w.state.transactionPromise.isSome = true ∧
   w.state.resolveTransaction.isSome = true) ∨
  (w.state.currentTransaction = none ∧
   w.state.transactionPromise = none ∧
   w.state.resolveTransaction = none)

/-- Coordinator states observable by callers of its operations: each step is
an operation that has settled, so no call is in flight at an observable
state.  A `beginTransaction` whose promise never settles (the seed-failure
path) has no successor here: its caller is still awaiting it forever. -/
inductive Reachable {Data ε : Type} (opts : DrizzleEnvironmentOptions Data ε) :
    World Data ε → Prop where
  | init (d : Data) : Reachable opts (initialWorld d)
  | setupStep {w : World Data ε} : Reachable opts w →
      Reachable opts (DrizzleEnvironmentContext.setup w)
  | beginStep {w : World Data ε} : Reachable opts w →
      (DrizzleEnvironmentContext.beginTransaction opts w).1 ≠ .neverSettles →
      Reachable opts (DrizzleEnvironmentContext.beginTransaction opts w).2
  | rollbackStep {w : World Data ε} : Reachable opts w →
      Reachable opts (DrizzleEnvironmentContext.rollbackTransaction opts w).2
  | teardownStep {w : World Data ε} : Reachable opts w →
      Reachable opts (DrizzleEnvironmentContext.teardown opts w)

/-- Coordinator states reachable when every `beginTransaction` call respects
the documented precondition that no transaction is currently open — the
discipline the lifecycle binder maintains by strictly alternating
begin/rollback around each test.  The coordinator itself does not check this
precondition. -/
inductive ProtocolReachable {Data ε : Type}
    (opts : DrizzleEnvironmentOptions Data ε) : World Data ε → Prop where
  | init (d : Data) : ProtocolReachable opts (initialWorld d)
  | setupStep {w : World Data ε} : ProtocolReachable opts w →
      ProtocolReachable opts (DrizzleEnvironmentContext.setup w)
  | beginStep {w : World Data ε} : ProtocolReachable opts w →
      w.openTxs = [] → w.state.resolveTransaction = none →
      ProtocolReachable opts (DrizzleEnvironmentContext.beginTransaction opts w).2
  | rollbackStep {w : World Data ε} : ProtocolReachable opts w →
      ProtocolReachable opts (DrizzleEnvironmentContext.rollbackTransaction opts w).2
  | teardownStep {w : World Data ε} : ProtocolReachable opts w →
      ProtocolReachable opts (DrizzleEnvironmentContext.teardown opts w)

/-- Concrete option sets used to evaluate the model on explicit inputs.
`opts0`: no optional routine configured. -/
def opts0 : DrizzleEnvironmentOptions Nat Nat := {}

/-- A seed routine that succeeds, writing one row through the handle. -/
def optsSeed : DrizzleEnvironmentOptions Nat Nat :=
  { setup := some (fun _ d => .ok (d + 1)) }

/-- A seed routine that throws the error `7`. -/
def optsSeedFail : DrizzleEnvironmentOptions Nat Nat :=
  { setup := some (fun _ _ => .error 7) }

/-- A cleanup routine that succeeds, writing through the handle. -/
def optsCleanup : DrizzleEnvironmentOptions Nat Nat :=
  { teardown := some (fun _ d => .ok (d + 2)) }

/-- A cleanup routine that throws the error `5`. -/
def optsCleanupFail : DrizzleEnvironmentOptions Nat Nat :=
  { teardown := some (fun _ _ => .error 5) }

/-- A configured disconnect routine. -/
def optsDisc : DrizzleEnvironmentOptions Nat Nat := { disconnect := true }

/-- The world after `setup()` against a database with committed contents 0. -/
def w0ex : World Nat Nat := DrizzleEnvironmentContext.setup (initialWorld 0)

/-- The world after a plain `beginTransaction()` from `w0ex`. -/
def wOpenEx : World Nat Nat :=
  (DrizzleEnvironmentContext.beginTransaction opts0 w0ex).2

/-- The world after a `beginTransaction()` with the succeeding seed routine. -/
def wSeedEx : World Nat Nat :=
  (DrizzleEnvironmentContext.beginTransaction optsSeed w0ex).2

/-- The world after a first suite shutdown with a configured disconnect
routine: no client is stored any more. -/
def wNoClientEx : World Nat Nat := DrizzleEnvironmentContext.teardown optsDisc w0ex

end VitestDrizzle

namespace VitestDrizzle

open DrizzleEnvironmentContext

section Helpers

variable {Data ε : Type}

/-- Inversion of a `beginTransaction` call whose promise resolved: the client
was stored, the handle is the fresh transaction id, the seed routine ran to
completion, and the resulting world is the success branch of the source. -/
theorem beginTransaction_resolvedWith_inv
    {opts : DrizzleEnvironmentOptions Data ε} {w0 w1 : World Data ε} {id : Nat}
    (h : beginTransaction opts w0 = (.resolvedWith id, w1)) :
    w0.state.db = true ∧ id = w0.nextTx ∧
    ∃ work, runSeed opts.setup w0.nextTx w0.committed = .ok work ∧
      w1 = { w0 with
               nextTx := w0.nextTx + 1
               openTxs := w0.openTxs ++ [(w0.nextTx, work)]
               state := { w0.state with
                            currentTransaction := some w0.nextTx
                            transactionPromise := some .pending
                            resolveTransaction := some w0.nextTx }
               events := w0.events ++ [.txStarted w0.nextTx, .seedCompleted w0.nextTx,
                                       .outerResolved w0.nextTx, .triggerInstalled w0.nextTx] } := by
  unfold beginTransaction at h
  by_cases hdb : w0.state.db = false
  · rw [if_pos hdb] at h
    exact absurd (congrArg Prod.fst h) (by simp)
  · rw [if_neg hdb] at h
    cases hs : runSeed opts.setup w0.nextTx w0.committed with
    | ok work =>
        simp only [hs, Prod.mk.injEq, BeginOutcome.resolvedWith.injEq] at h
        exact ⟨eq_true_of_ne_false hdb, h.1.symm, work, rfl, h.2.symm⟩
    | error e =>
        rw [hs] at h
        exact absurd (congrArg Prod.fst h) (by simp)

/-- Inversion of a `beginTransaction` call whose promise never settles: the
client was stored, the seed routine threw, and the resulting world is the
seed-failure branch of the source. -/
theorem beginTransaction_neverSettles_inv
    {opts : DrizzleEnvironmentOptions Data ε} {w0 w1 : World Data ε}
    (h : beginTransaction opts w0 = (.neverSettles, w1)) :
    w0.state.db = true ∧
    ∃ e, runSeed opts.setup w0.nextTx w0.committed = .error e ∧
      w1 = { w0 with
               nextTx := w0.nextTx + 1
               state := { w0.state with
                            currentTransaction := some w0.nextTx
                            transactionPromise :=
                              some (applyCatch (.rejected (.userError e))) }
               swallowed := w0.swallowed ++ [.userError e]
               events := w0.events ++ [.txStarted w0.nextTx] } := by
  unfold beginTransaction at h
  by_cases hdb : w0.state.db = false
  · rw [if_pos hdb] at h
    exact absurd (congrArg Prod.fst h) (by simp)
  · rw [if_neg hdb] at h
    cases hs : runSeed opts.setup w0.nextTx w0.committed with
    | ok work =>
        rw [hs] at h
        exact absurd (congrArg Prod.fst h) (by simp)
    | error e =>
        simp only [hs, Prod.mk.injEq] at h
        exact ⟨eq_true_of_ne_false hdb, e, rfl, h.2.symm⟩

/-- After the trigger block of `rollbackTransaction`, no trigger is installed
(the block clears an installed trigger and leaves an absent one absent). -/
theorem rollbackStep2_resolveTransaction_none (w : World Data ε) :
    (rollbackStep2 w).state.resolveTransaction = none := by
  unfold rollbackStep2
  cases h : w.state.resolveTransaction <;> simp [h]

/-- `rollbackTransaction`'s own promise always resolves: no path rejects. -/
theorem rollbackTransaction_fst (opts : DrizzleEnvironmentOptions Data ε)
    (w : World Data ε) : (rollbackTransaction opts w).1 = .ok () := by
  unfold rollbackTransaction rollbackStep3
  cases h : (rollbackStep2 (rollbackStep1 opts w)).state.transactionPromise <;> simp [h]

/-- After any `rollbackTransaction`, the three per-test lockstep fields are in
the absent state. -/
theorem rollbackTransaction_clears (opts : DrizzleEnvironmentOptions Data ε)
    (w : World Data ε) :
    (rollbackTransaction opts w).2.state.currentTransaction = none ∧
    (rollbackTransaction opts w).2.state.transactionPromise = none ∧
    (rollbackTransaction opts w).2.state.resolveTransaction = none := by
  unfold rollbackTransaction rollbackStep3
  cases h2 : (rollbackStep2 (rollbackStep1 opts w)).state.transactionPromise with
  | some p => simp [h2, rollbackStep2_resolveTransaction_none]
  | none => simp [h2, rollbackStep2_resolveTransaction_none]

/-- Test-body writes through a handle leave every world component except the
open transactions' working data unchanged. -/
theorem applyWrites_eta (id : Nat) (fs : List (Data → Data)) (w : World Data ε) :
    applyWrites id fs w = { w with openTxs := (applyWrites id fs w).openTxs } := by
  induction fs generalizing w with
  | nil => rfl
  | cons f fs ih => exact ih (writeThroughTx id f w)

/-- Writes through handle `id` keep a lone open transaction with that handle
a lone open transaction with that handle. -/
theorem applyWrites_openTxs_single (id : Nat) (fs : List (Data → Data))
    (d : Data) (w : World Data ε) (h : w.openTxs = [(id, d)]) :
    ∃ d', (applyWrites id fs w).openTxs = [(id, d')] := by
  induction fs generalizing w d with
  | nil => exact ⟨d, h⟩
  | cons f fs ih =>
      refine ih (f d) (writeThroughTx id f w) ?_
      simp [writeThroughTx, h]

/-- The cleanup block of `rollbackTransaction` touches only the open
transactions' working data, the error log and the event trace. -/
theorem rollbackStep1_preserves (opts : DrizzleEnvironmentOptions Data ε)
    (w : World Data ε) :
    (rollbackStep1 opts w).state = w.state ∧
    (rollbackStep1 opts w).committed = w.committed ∧
    (rollbackStep1 opts w).nextTx = w.nextTx ∧
    (rollbackStep1 opts w).swallowed = w.swallowed ∧
    (rollbackStep1 opts w).warnCount = w.warnCount ∧
    (rollbackStep1 opts w).disconnectCalls = w.disconnectCalls := by
  unfold rollbackStep1
  split
  · split
    · split <;> exact ⟨rfl, rfl, rfl, rfl, rfl, rfl⟩
    · exact ⟨rfl, rfl, rfl, rfl, rfl, rfl⟩
  · exact ⟨rfl, rfl, rfl, rfl, rfl, rfl⟩

/-- The cleanup block keeps a lone open transaction a lone open transaction
with the same handle. -/
theorem rollbackStep1_openTxs_single (opts : DrizzleEnvironmentOptions Data ε)
    {w : World Data ε} {id : Nat} {d : Data} (ho : w.openTxs = [(id, d)]) :
    ∃ d', (rollbackStep1 opts w).openTxs = [(id, d')] := by
  unfold rollbackStep1
  split
  · split
    · split
      · simp only [updateTx, ho, List.map_cons, List.map_nil]
        split
        · rename_i hpos
          subst hpos
          exact ⟨_, rfl⟩
        · exact ⟨d, rfl⟩
      · exact ⟨d, ho⟩
    · exact ⟨d, ho⟩
  · exact ⟨d, ho⟩

/-- The trigger block of `rollbackTransaction` when a trigger is installed:
the database-level transaction is rolled back, the `RollbackError` rejection
is absorbed by the swallow handler (settling the stored transaction-opening
promise), and the trigger is cleared. -/
theorem rollbackStep2_some {w : World Data ε} {id : Nat}
    (h : w.state.resolveTransaction = some id) :
    rollbackStep2 w =
      { w with
          openTxs := w.openTxs.filter (fun p => p.1 ≠ id)
          state := { w.state with
                       resolveTransaction := none
                       transactionPromise :=
                         w.state.transactionPromise.map
                           (fun _ => applyCatch (.rejected .rollbackError)) }
          swallowed := w.swallowed ++ [.rollbackError]
          events := w.events ++ [.triggerInvoked id] } := by
  unfold rollbackStep2
  rw [h]

/-- With a trigger installed and the stored transaction-opening promise still
pending, that promise is settled — as resolved, through the swallow handler —
by the time `rollbackTransaction` awaits it. -/
theorem rollback_settled_before_await {opts : DrizzleEnvironmentOptions Data ε}
    {w : World Data ε} {id : Nat}
    (hr : w.state.resolveTransaction = some id)
    (hp : w.state.transactionPromise = some .pending) :
    (rollbackStep2 (rollbackStep1 opts w)).state.transactionPromise =
      some (applyCatch (.rejected .rollbackError)) := by
  have hs1 := (rollbackStep1_preserves opts w).1
  have hr1 : (rollbackStep1 opts w).state.resolveTransaction = some id := by
    rw [hs1]; exact hr
  have hp1 : (rollbackStep1 opts w).state.transactionPromise = some .pending := by
    rw [hs1]; exact hp
  rw [rollbackStep2_some hr1]
  simp [hp1]

/-- `rollbackTransaction` from a state with an installed trigger and a pending
stored promise, in closed form: cleanup happened in step 1, then the forced
rollback, the swallow, the await and the field clears. -/
theorem rollbackTransaction_open_eq (opts : DrizzleEnvironmentOptions Data ε)
    {w : World Data ε} {id : Nat}
    (hr : w.state.resolveTransaction = some id)
    (hp : w.state.transactionPromise = some .pending) :
    rollbackTransaction opts w =
      (.ok (),
        { rollbackStep1 opts w with
            openTxs := (rollbackStep1 opts w).openTxs.filter (fun p => p.1 ≠ id)
            state := { (rollbackStep1 opts w).state with
                         currentTransaction := none
                         transactionPromise := none
                         resolveTransaction := none }
            swallowed := (rollbackStep1 opts w).swallowed ++ [.rollbackError]
            events := (rollbackStep1 opts w).events ++ [.triggerInvoked id] }) := by
  have hs1 := (rollbackStep1_preserves opts w).1
  have hr1 : (rollbackStep1 opts w).state.resolveTransaction = some id := by
    rw [hs1]; exact hr
  have hp1 : (rollbackStep1 opts w).state.transactionPromise = some .pending := by
    rw [hs1]; exact hp
  unfold rollbackTransaction
  rw [rollbackStep2_some hr1]
  unfold rollbackStep3
  simp [hp1, applyCatch]

/-- Inversion of a `beginTransaction` call that threw before entering the
promise executor: only the initialization-order check throws, leaving the
world unchanged. -/
theorem beginTransaction_threw_inv
    {opts : DrizzleEnvironmentOptions Data ε} {w0 w1 : World Data ε}
    {er : JsError ε} (h : beginTransaction opts w0 = (.threw er, w1)) :
    w1 = w0 := by
  unfold beginTransaction at h
  by_cases hdb : w0.state.db = false
  · rw [if_pos hdb] at h
    exact (congrArg Prod.snd h).symm
  · rw [if_neg hdb] at h
    cases hs : runSeed opts.setup w0.nextTx w0.committed with
    | ok work =>
        rw [hs] at h
        exact absurd (congrArg Prod.fst h) (by simp)
    | error e =>
        rw [hs] at h
        exact absurd (congrArg Prod.fst h) (by simp)

/-- The cleanup block is a no-op when no current transaction is stored. -/
theorem rollbackStep1_no_current {opts : DrizzleEnvironmentOptions Data ε}
    {w : World Data ε} (h : w.state.currentTransaction = none) :
    rollbackStep1 opts w = w := by
  unfold rollbackStep1
  split
  · rename_i tdx cidx hTx hcx
    rw [h] at hcx
    cases hcx
  · rfl

/-- The cleanup block when the configured cleanup routine throws: the error is
appended to the log and nothing else changes. -/
theorem rollbackStep1_cleanup_error {opts : DrizzleEnvironmentOptions Data ε}
    {w : World Data ε} {td : Nat → Data → Except ε Data} {id : Nat} {d : Data}
    {e : ε} (hT : opts.teardown = some td)
    (hc : w.state.currentTransaction = some id)
    (hl : lookupTx w.openTxs id = some d) (he : td id d = .error e) :
    rollbackStep1 opts w = { w with loggedErrors := w.loggedErrors ++ [e] } := by
  unfold rollbackStep1
  split
  · rename_i tdx cidx hTx hcx
    rw [hT] at hTx
    rw [hc] at hcx
    obtain rfl : td = tdx := Option.some.inj hTx
    obtain rfl : id = cidx := Option.some.inj hcx
    split
    · rename_i workx hlx
      rw [hl] at hlx
      obtain rfl : d = workx := Option.some.inj hlx
      split
      · rename_i work2 hk2
        rw [he] at hk2
        cases hk2
      · rename_i e2 hk2
        rw [he] at hk2
        obtain rfl : e = e2 := by cases hk2; rfl
        rfl
    · rename_i hlx
      rw [hl] at hlx
      cases hlx
  · rename_i hwild
    exact absurd hc (hwild td id hT)

/-- The trigger block is a no-op when no trigger is installed. -/
theorem rollbackStep2_none {w : World Data ε}
    (h : w.state.resolveTransaction = none) : rollbackStep2 w = w := by
  unfold rollbackStep2
  rw [h]

/-- The await block never changes the open transactions. -/
theorem rollbackStep3_openTxs (w : World Data ε) :
    (rollbackStep3 w).2.openTxs = w.openTxs := by
  unfold rollbackStep3
  cases h : w.state.transactionPromise <;> simp [h]

/-- The cleanup block keeps an empty open-transaction list empty. -/
theorem rollbackStep1_openTxs_nil {opts : DrizzleEnvironmentOptions Data ε}
    {w : World Data ε} (ho : w.openTxs = []) :
    (rollbackStep1 opts w).openTxs = [] := by
  unfold rollbackStep1
  split
  · split
    · split
      · simp [updateTx, ho]
      · exact ho
    · exact ho
  · exact ho

/-- `rollbackTransaction` from a state with no trigger and no open
transaction leaves the open-transaction list empty. -/
theorem rollback_openTxs_nil {opts : DrizzleEnvironmentOptions Data ε}
    {w : World Data ε} (htr : w.state.resolveTransaction = none)
    (ho : w.openTxs = []) :
    (rollbackTransaction opts w).2.openTxs = [] := by
  have h1 : (rollbackStep1 opts w).openTxs = [] := rollbackStep1_openTxs_nil ho
  have hr1 : (rollbackStep1 opts w).state.resolveTransaction = none := by
    rw [(rollbackStep1_preserves opts w).1]; exact htr
  show (rollbackStep3 (rollbackStep2 (rollbackStep1 opts w))).2.openTxs = []
  rw [rollbackStep3_openTxs, rollbackStep2_none hr1, h1]

/-- `rollbackTransaction` from a state whose installed trigger matches the
lone open transaction closes that transaction. -/
theorem rollback_openTxs_from_single {opts : DrizzleEnvironmentOptions Data ε}
    {w : World Data ε} {id : Nat} {d : Data}
    (hr : w.state.resolveTransaction = some id) (ho : w.openTxs = [(id, d)]) :
    (rollbackTransaction opts w).2.openTxs = [] := by
  obtain ⟨d3, ho3⟩ := rollbackStep1_openTxs_single opts ho
  have hr1 : (rollbackStep1 opts w).state.resolveTransaction = some id := by
    rw [(rollbackStep1_preserves opts w).1]; exact hr
  show (rollbackStep3 (rollbackStep2 (rollbackStep1 opts w))).2.openTxs = []
  rw [rollbackStep3_openTxs, rollbackStep2_some hr1]
  simp [ho3]

/-- The final coordinator state, committed data and open transactions after a
`rollbackTransaction` from an open state, independent of the configured
cleanup routine. -/
theorem rollbackTransaction_open_final (opts : DrizzleEnvironmentOptions Data ε)
    {w : World Data ε} {id : Nat} {d : Data}
    (hr : w.state.resolveTransaction = some id)
    (hp : w.state.transactionPromise = some .pending)
    (ho : w.openTxs = [(id, d)]) :
    (rollbackTransaction opts w).2.state =
      { w.state with
          currentTransaction := none
          transactionPromise := none
          resolveTransaction := none }
  ∧ (rollbackTransaction opts w).2.openTxs = []
  ∧ (rollbackTransaction opts w).2.committed = w.committed := by
  have heq := rollbackTransaction_open_eq opts hr hp
  have hpre := rollbackStep1_preserves opts w
  refine ⟨?_, rollback_openTxs_from_single hr ho, ?_⟩
  · rw [heq]
    show { (rollbackStep1 opts w).state with
             currentTransaction := none
             transactionPromise := none
             resolveTransaction := none } =
         { w.state with
             currentTransaction := none
             transactionPromise := none
             resolveTransaction := none }
    rw [hpre.1]
  · rw [heq]
    show (rollbackStep1 opts w).committed = w.committed
    exact hpre.2.1

/-- `rollbackTransaction` in the closed state (all three per-test fields
absent) resolves with no effect at all. -/
theorem rollbackTransaction_closed_noop {opts : DrizzleEnvironmentOptions Data ε}
    {w : World Data ε}
    (h1 : w.state.currentTransaction = none)
    (h2 : w.state.transactionPromise = none)
    (h3 : w.state.resolveTransaction = none) :
    rollbackTransaction opts w = (.ok (), w) := by
  unfold rollbackTransaction
  rw [rollbackStep1_no_current h1, rollbackStep2_none h3]
  unfold rollbackStep3
  rw [h2]
  obtain ⟨com, otx, ntx, st, dc, le, wc, sw, ev⟩ := w
  obtain ⟨db, ct, tp, rt, re⟩ := st
  cases h1
  rfl

/-- In every caller-observable state, the stored transaction-opening promise
is never in rejected status: the unconditional swallow handler has converted
every rejection — including the manufactured Rollback Signal — into a
resolution, so no stored settled promise can surface an unhandled
rejection. -/
theorem reachable_promise_not_rejected {opts : DrizzleEnvironmentOptions Data ε}
    {w : World Data ε} (h : Reachable opts w) :
    ∀ s, w.state.transactionPromise = some s → ∀ e, s ≠ .rejected e := by
  induction h with
  | init d =>
      intro s hs e
      cases hs
  | setupStep h ih =>
      intro s hs e
      exact ih s hs e
  | @beginStep w h hne ih =>
      intro s hs e
      rcases hbt : beginTransaction opts w with ⟨outcome, w2⟩
      rw [hbt] at hs hne
      cases outcome with
      | resolvedWith id =>
          obtain ⟨-, -, work, -, hw⟩ := beginTransaction_resolvedWith_inv hbt
          rw [hw] at hs
          simp only [Option.some.injEq] at hs
          subst hs
          simp
      | threw er =>
          rw [beginTransaction_threw_inv hbt] at hs
          exact ih s hs e
      | neverSettles => exact absurd rfl hne
  | rollbackStep h ih =>
      intro s hs e
      rw [(rollbackTransaction_clears _ _).2.1] at hs
      cases hs
  | teardownStep h ih =>
      intro s hs e
      unfold DrizzleEnvironmentContext.teardown at hs
      cases hd : opts.disconnect <;> rw [hd] at hs <;> exact ih s hs e

/-- Invariant of protocol-respecting executions: either the coordinator is
closed (no trigger, no database-level open transaction) or exactly one
transaction is open, the installed trigger unwinds exactly that transaction,
and the stored transaction-opening promise is pending. -/
theorem protocol_single_open {opts : DrizzleEnvironmentOptions Data ε}
    {w : World Data ε} (h : ProtocolReachable opts w) :
    (w.state.resolveTransaction = none ∧ w.openTxs = []) ∨
    (∃ id d, w.state.resolveTransaction = some id ∧ w.openTxs = [(id, d)] ∧
             w.state.transactionPromise = some .pending) := by
  induction h with
  | init d => exact Or.inl ⟨rfl, rfl⟩
  | setupStep h ih => exact ih
  | @beginStep w h hemp htrig ih =>
      rcases hbt : beginTransaction opts w with ⟨outcome, w2⟩
      cases outcome with
      | resolvedWith id =>
          obtain ⟨-, -, work, -, hw⟩ := beginTransaction_resolvedWith_inv hbt
          rw [hw]
          exact Or.inr ⟨w.nextTx, work, rfl, by simp [hemp], rfl⟩
      | threw er =>
          rw [beginTransaction_threw_inv hbt]
          exact ih
      | neverSettles =>
          obtain ⟨-, e, -, hw⟩ := beginTransaction_neverSettles_inv hbt
          rw [hw]
          exact Or.inl ⟨htrig, hemp⟩
  | rollbackStep h ih =>
      rcases ih with ⟨htr, hop⟩ | ⟨id, d, htr, hop, hpend⟩
      · exact Or.inl ⟨(rollbackTransaction_clears _ _).2.2,
                      rollback_openTxs_nil htr hop⟩
      · exact Or.inl ⟨(rollbackTransaction_clears _ _).2.2,
                      rollback_openTxs_from_single htr hop⟩
  | teardownStep h ih =>
      unfold DrizzleEnvironmentContext.teardown
      cases opts.disconnect <;> exact ih

end Helpers

section Claims

variable {Data ε : Type}

/-- **C1.** Whenever the promise returned by `beginTransaction()` resolves
with a handle, the underlying transaction has actually started (the handle
denotes an open database-level transaction), the optional seed routine ran to
completion against that handle before the outer promise resolved (event
order: transaction started, then seed completed, then outer resolved), the
handle stored as the current transaction equals the resolved handle, and the
underlying callback is pinned open — the stored transaction-opening promise
is pending, stays pending under the coordinator's other operations (reads and
suite shutdown), and is settled exactly by invoking the installed
forced-failure trigger. -/
theorem beginTransaction_resolution_spec
    (opts : DrizzleEnvironmentOptions Data ε) (w0 : World Data ε)
    {w1 : World Data ε} {id : Nat}
    (h : beginTransaction opts w0 = (.resolvedWith id, w1)) :
    w1.state.currentTransaction = some id
  ∧ (∃ work, (id, work) ∈ w1.openTxs)
  ∧ (∃ work, runSeed opts.setup id w0.committed = .ok work)
  ∧ w1.events = w0.events ++ [.txStarted id, .seedCompleted id,
                              .outerResolved id, .triggerInstalled id]
  ∧ w1.state.transactionPromise = some .pending
  ∧ w1.state.resolveTransaction = some id
  ∧ (clientGet w1).2.state.transactionPromise = some .pending
  ∧ (DrizzleEnvironmentContext.teardown opts w1).state.transactionPromise = some .pending
  ∧ (rollbackStep2 w1).state.transactionPromise =
      some (applyCatch (.rejected .rollbackError)) := by
  obtain ⟨hdb, hid, work, hs, hw⟩ := beginTransaction_resolvedWith_inv h
  subst hid
  subst hw
  refine ⟨rfl, ⟨work, by simp⟩, ⟨work, hs⟩, rfl, rfl, rfl, rfl, ?_, ?_⟩
  · unfold DrizzleEnvironmentContext.teardown
    cases opts.disconnect <;> rfl
  · rw [rollbackStep2_some rfl]
    rfl

/-- Witness for C1: a concrete `beginTransaction` with a seed routine resolves
with handle 0, which is then the stored current transaction. -/
theorem beginTransaction_resolution_spec_witness :
    (DrizzleEnvironmentContext.beginTransaction optsSeed w0ex).2.state.currentTransaction
      = some 0 :=
  (beginTransaction_resolution_spec optsSeed w0ex rfl).1

/-- **C2 counterexample.** With a configured seed routine that throws (error
`7`), the promise returned by `beginTransaction()` does not reject with the
seed routine's error — it never settles, because the seed error is consumed
by the unconditional swallow handler and the outer promise has no rejection
path. -/
theorem beginTransaction_seed_error_not_propagated :
    (DrizzleEnvironmentContext.beginTransaction optsSeedFail w0ex).1 = .neverSettles
  ∧ (DrizzleEnvironmentContext.beginTransaction optsSeedFail w0ex).1
      ≠ .threw (.userError 7) := by
  exact ⟨rfl, by decide⟩

/-- **C2 (amended).** If the seed routine throws during `beginTransaction()`,
the attempted transaction aborts naturally (no database-level transaction
remains open and the committed data is untouched) and no forced-failure
trigger is installed in this path; however the error does not propagate out
of `beginTransaction()`: it is absorbed by the unconditional swallow handler
and the returned promise never settles. -/
theorem beginTransaction_seed_failure_swallowed
    (opts : DrizzleEnvironmentOptions Data ε) (w0 : World Data ε)
    {w1 : World Data ε}
    (h : beginTransaction opts w0 = (.neverSettles, w1))
    (ht : w0.state.resolveTransaction = none) :
    (∃ e, runSeed opts.setup w0.nextTx w0.committed = .error e
        ∧ w1.swallowed = w0.swallowed ++ [.userError e])
  ∧ w1.state.resolveTransaction = none
  ∧ w1.openTxs = w0.openTxs
  ∧ w1.committed = w0.committed := by
  obtain ⟨hdb, e, hs, hw⟩ := beginTransaction_neverSettles_inv h
  subst hw
  exact ⟨⟨e, hs, rfl⟩, ht, rfl, rfl⟩

/-- Witness for the amended C2 at a concrete failing seed. -/
theorem beginTransaction_seed_failure_swallowed_witness :
    (DrizzleEnvironmentContext.beginTransaction optsSeedFail w0ex).2.state.resolveTransaction
      = none :=
  (beginTransaction_seed_failure_swallowed optsSeedFail w0ex rfl rfl).2.1

/-- **C3.** For a test whose transaction was opened by `beginTransaction()`
(and whose body performed arbitrary writes through the handle), when
`rollbackTransaction()` resolves: the transaction-opening call has fully
settled — as resolved, via the swallow handler — before being awaited; all
per-test lockstep fields are in the absent state; no transaction is open; and
the database (committed contents and open transactions) is observably
unchanged from its state immediately before `beginTransaction()` was
called. -/
theorem rollbackTransaction_restores_database
    (opts : DrizzleEnvironmentOptions Data ε) (w0 : World Data ε)
    {w1 : World Data ε} {id : Nat}
    (writes : List (Data → Data))
    (hopen : w0.openTxs = [])
    (h : beginTransaction opts w0 = (.resolvedWith id, w1)) :
    (rollbackTransaction opts (applyWrites id writes w1)).1 = .ok ()
  ∧ (rollbackStep2 (rollbackStep1 opts (applyWrites id writes w1))).state.transactionPromise
      = some (applyCatch (.rejected .rollbackError))
  ∧ (rollbackTransaction opts (applyWrites id writes w1)).2.state.currentTransaction = none
  ∧ (rollbackTransaction opts (applyWrites id writes w1)).2.state.transactionPromise = none
  ∧ (rollbackTransaction opts (applyWrites id writes w1)).2.state.resolveTransaction = none
  ∧ (rollbackTransaction opts (applyWrites id writes w1)).2.openTxs = []
  ∧ (rollbackTransaction opts (applyWrites id writes w1)).2.committed = w0.committed := by
  obtain ⟨hdb, hid, work, hs, hw⟩ := beginTransaction_resolvedWith_inv h
  subst hid
  have hst : (applyWrites w0.nextTx writes w1).state = w1.state := by
    rw [applyWrites_eta]
  have hcm : (applyWrites w0.nextTx writes w1).committed = w1.committed := by
    rw [applyWrites_eta]
  have hr2 : (applyWrites w0.nextTx writes w1).state.resolveTransaction
      = some w0.nextTx := by rw [hst, hw]
  have hp2 : (applyWrites w0.nextTx writes w1).state.transactionPromise
      = some .pending := by rw [hst, hw]
  have ho1 : w1.openTxs = [(w0.nextTx, work)] := by rw [hw]; simp [hopen]
  obtain ⟨d2, ho2⟩ := applyWrites_openTxs_single w0.nextTx writes work w1 ho1
  obtain ⟨d3, ho3⟩ :=
    rollbackStep1_openTxs_single opts (w := applyWrites w0.nextTx writes w1) ho2
  have heq := rollbackTransaction_open_eq opts hr2 hp2
  refine ⟨rollbackTransaction_fst _ _, rollback_settled_before_await hr2 hp2,
          (rollbackTransaction_clears _ _).1, (rollbackTransaction_clears _ _).2.1,
          (rollbackTransaction_clears _ _).2.2, ?_, ?_⟩
  · rw [heq]
    simp [ho3]
  · rw [heq]
    have := (rollbackStep1_preserves opts (applyWrites w0.nextTx writes w1)).2.1
    simp only []
    rw [this, hcm, hw]

/-- Witness for C3: after a seeded begin and a test-body write, rollback
restores the concrete database to its prior committed contents. -/
theorem rollbackTransaction_restores_database_witness :
    (rollbackTransaction optsSeed
      (applyWrites 0 [fun d => d + 3] wSeedEx)).2.committed = 0 :=
  (rollbackTransaction_restores_database optsSeed w0ex
     [fun d => d + 3] rfl rfl).2.2.2.2.2.2

/-- **C4.** The manufactured Rollback Signal is never observed outside the
coordinator: `rollbackTransaction()` always resolves (never rejects with it);
in every caller-observable state no stored settled promise is in rejected
status (so triggering rollback never leaves an unhandled asynchronous
rejection), and this remains true after a further `rollbackTransaction()`;
and whenever the forced-failure trigger is invoked, the `RollbackError` is
unconditionally intercepted by the swallow handler attached at the
transaction-opening call site. -/
theorem rollbackError_never_escapes {opts : DrizzleEnvironmentOptions Data ε}
    {w : World Data ε} (h : Reachable opts w) :
    (rollbackTransaction opts w).1 = .ok ()
  ∧ (∀ s, w.state.transactionPromise = some s → ∀ e, s ≠ .rejected e)
  ∧ (∀ s, (rollbackTransaction opts w).2.state.transactionPromise = some s →
        ∀ e, s ≠ .rejected e)
  ∧ (∀ id, w.state.resolveTransaction = some id →
        (rollbackStep2 (rollbackStep1 opts w)).swallowed =
          (rollbackStep1 opts w).swallowed ++ [.rollbackError]) := by
  refine ⟨rollbackTransaction_fst _ _, reachable_promise_not_rejected h, ?_, ?_⟩
  · intro s hs e
    rw [(rollbackTransaction_clears opts w).2.1] at hs
    cases hs
  · intro id hid
    have hr1 : (rollbackStep1 opts w).state.resolveTransaction = some id := by
      rw [(rollbackStep1_preserves opts w).1]; exact hid
    rw [rollbackStep2_some hr1]

/-- Witness for C4 at a concrete open reachable state. -/
theorem rollbackError_never_escapes_witness :
    (rollbackTransaction opts0 wOpenEx).1 = .ok () ∧
    (rollbackStep2 (rollbackStep1 opts0 wOpenEx)).swallowed =
      (rollbackStep1 opts0 wOpenEx).swallowed ++ [.rollbackError] := by
  have hreach : Reachable opts0 wOpenEx :=
    Reachable.beginStep (Reachable.setupStep (Reachable.init 0)) (by decide)
  have h := rollbackError_never_escapes hreach
  exact ⟨h.1, h.2.2.2 0 rfl⟩

/-- **C5.** If the configured pre-rollback cleanup routine throws while a
transaction is open, the error is logged but not propagated out of
`rollbackTransaction()` (which still resolves), and the forced rollback still
occurs — the trigger is still invoked and the transaction-opening promise is
still settled and awaited — leaving final coordinator state, open
transactions and committed data exactly as when a cleanup routine
succeeds. -/
theorem cleanup_failure_rollback_unaffected
    (opts opts2 : DrizzleEnvironmentOptions Data ε) {w : World Data ε}
    {id : Nat} {d d2 : Data} {e : ε} {td td2 : Nat → Data → Except ε Data}
    (hc : w.state.currentTransaction = some id)
    (hr : w.state.resolveTransaction = some id)
    (hp : w.state.transactionPromise = some .pending)
    (ho : w.openTxs = [(id, d)])
    (hT : opts.teardown = some td) (he : td id d = .error e)
    (hT2 : opts2.teardown = some td2) (hok : td2 id d = .ok d2) :
    (rollbackTransaction opts w).1 = .ok ()
  ∧ (rollbackTransaction opts w).2.loggedErrors = w.loggedErrors ++ [e]
  ∧ Event.triggerInvoked id ∈ (rollbackTransaction opts w).2.events
  ∧ (rollbackStep2 (rollbackStep1 opts w)).state.transactionPromise
      = some (applyCatch (.rejected .rollbackError))
  ∧ (rollbackTransaction opts w).2.state = (rollbackTransaction opts2 w).2.state
  ∧ (rollbackTransaction opts w).2.openTxs = (rollbackTransaction opts2 w).2.openTxs
  ∧ (rollbackTransaction opts w).2.committed = (rollbackTransaction opts2 w).2.committed
  ∧ (rollbackTransaction opts w).1 = (rollbackTransaction opts2 w).1 := by
  have hl : lookupTx w.openTxs id = some d := by simp [lookupTx, ho]
  have h1 := rollbackStep1_cleanup_error hT hc hl he
  have heq := rollbackTransaction_open_eq opts hr hp
  have hfinal := rollbackTransaction_open_final opts hr hp ho
  have hfinal2 := rollbackTransaction_open_final opts2 hr hp ho
  refine ⟨rollbackTransaction_fst _ _, ?_, ?_, rollback_settled_before_await hr hp,
          ?_, ?_, ?_, ?_⟩
  · rw [heq]
    show (rollbackStep1 opts w).loggedErrors = w.loggedErrors ++ [e]
    rw [h1]
  · rw [heq]
    show Event.triggerInvoked id ∈
      (rollbackStep1 opts w).events ++ [Event.triggerInvoked id]
    simp
  · rw [hfinal.1, hfinal2.1]
  · rw [hfinal.2.1, hfinal2.2.1]
  · rw [hfinal.2.2, hfinal2.2.2]
  · rw [rollbackTransaction_fst, rollbackTransaction_fst]

/-- Witness for C5: the cleanup routine throwing `5` over a concrete open
transaction gets logged while rollback proceeds. -/
theorem cleanup_failure_rollback_unaffected_witness :
    (rollbackTransaction optsCleanupFail wOpenEx).2.loggedErrors
      = wOpenEx.loggedErrors ++ [5] :=
  (cleanup_failure_rollback_unaffected optsCleanupFail optsCleanup
    (w := wOpenEx) rfl rfl rfl rfl rfl rfl rfl rfl).2.1

/-- **C6.** In every caller-observable coordinator state — each operation in
the history has settled, no call in flight — the active transaction handle,
the pending settlement and the forced-failure trigger are all present
together or all absent together. -/
theorem lockstep_invariant {opts : DrizzleEnvironmentOptions Data ε}
    {w : World Data ε} (h : Reachable opts w) : lockstep w := by
  induction h with
  | init d => exact Or.inr ⟨rfl, rfl, rfl⟩
  | setupStep h ih => exact ih
  | @beginStep w h hne ih =>
      rcases hbt : beginTransaction opts w with ⟨outcome, w2⟩
      rw [hbt] at hne
      cases outcome with
      | resolvedWith id =>
          obtain ⟨-, -, work, -, hw⟩ := beginTransaction_resolvedWith_inv hbt
          rw [hw]
          exact Or.inl ⟨rfl, rfl, rfl⟩
      | threw er =>
          rw [beginTransaction_threw_inv hbt]
          exact ih
      | neverSettles => exact absurd rfl hne
  | rollbackStep h ih => exact Or.inr (rollbackTransaction_clears _ _)
  | teardownStep h ih =>
      unfold DrizzleEnvironmentContext.teardown
      cases opts.disconnect <;> exact ih

/-- Witness for C6 at a concrete open reachable state. -/
theorem lockstep_invariant_witness : lockstep wOpenEx := by
  have hreach : Reachable opts0 wOpenEx :=
    Reachable.beginStep (Reachable.setupStep (Reachable.init 0)) (by decide)
  exact lockstep_invariant hreach

/-- **C7 counterexample.** The coordinator does not reject a
`beginTransaction()` issued while a transaction is already open: from an
OPEN state a second `beginTransaction()` resolves with a fresh handle and
leaves two database-level transactions (handles 0 and 1) simultaneously
open — overlapping transactions within one coordinator. -/
theorem overlapping_transactions_counterexample :
    (DrizzleEnvironmentContext.beginTransaction opts0 wOpenEx).1
      = .resolvedWith 1
  ∧ ((DrizzleEnvironmentContext.beginTransaction opts0 wOpenEx).2.openTxs.map
       Prod.fst) = [0, 1] := by decide

/-- **C7 (amended).** In executions where `beginTransaction()` is only
invoked in CLOSED states (no trigger installed, no open transaction — the
precondition the lifecycle binder maintains, which the coordinator itself
does not check), at most one database-level transaction is ever open: the
state machine never reaches a state with overlapping transactions. -/
theorem no_overlapping_transactions {opts : DrizzleEnvironmentOptions Data ε}
    {w : World Data ε} (h : ProtocolReachable opts w) :
    w.openTxs.length ≤ 1 := by
  rcases protocol_single_open h with ⟨-, ho⟩ | ⟨id, d, -, ho, -⟩ <;> simp [ho]

/-- Witness for the amended C7 at a concrete protocol-respecting state. -/
theorem no_overlapping_transactions_witness : wOpenEx.openTxs.length ≤ 1 := by
  have hreach : ProtocolReachable opts0 wOpenEx :=
    ProtocolReachable.beginStep
      (ProtocolReachable.setupStep (ProtocolReachable.init 0)) rfl rfl
  exact no_overlapping_transactions hreach

/-- **C8 counterexample.** After a first `teardown()` no client is stored,
yet a second `teardown()` still invokes the configured disconnect routine:
`teardown()` in the no-client state is not a no-op. -/
theorem teardown_without_client_invokes_disconnect :
    wNoClientEx.state.db = false
  ∧ (DrizzleEnvironmentContext.teardown optsDisc wNoClientEx).disconnectCalls
      = wNoClientEx.disconnectCalls + 1 := by decide

/-- **C8 (amended).** `teardown()` invokes the configured disconnect routine
whenever one is configured — regardless of whether a client is stored — and
clears the stored client, leaving every other component unchanged; it is a
no-op on a no-client state only when no disconnect routine is configured. -/
theorem teardown_spec (opts : DrizzleEnvironmentOptions Data ε)
    (w : World Data ε) :
    (DrizzleEnvironmentContext.teardown opts w).disconnectCalls
      = w.disconnectCalls + (if opts.disconnect then 1 else 0)
  ∧ (DrizzleEnvironmentContext.teardown opts w).state.db = false
  ∧ (DrizzleEnvironmentContext.teardown opts w).state.currentTransaction
      = w.state.currentTransaction
  ∧ (DrizzleEnvironmentContext.teardown opts w).committed = w.committed
  ∧ (DrizzleEnvironmentContext.teardown opts w).openTxs = w.openTxs
  ∧ (opts.disconnect = false → w.state.db = false →
       DrizzleEnvironmentContext.teardown opts w = w) := by
  unfold DrizzleEnvironmentContext.teardown
  cases hd : opts.disconnect
  · refine ⟨by simp, rfl, rfl, rfl, rfl, ?_⟩
    intro _ hdb
    obtain ⟨com, otx, ntx, st, dc, le, wc, sw, ev⟩ := w
    obtain ⟨db, ct, tp, rt, re⟩ := st
    cases hdb
    rfl
  · exact ⟨by simp, rfl, rfl, rfl, rfl, fun hcontra _ => by simp at hcontra⟩

/-- Witness for the amended C8: with no disconnect routine configured, a
second `teardown()` after the first is a no-op. -/
theorem teardown_spec_witness :
    DrizzleEnvironmentContext.teardown opts0
      (DrizzleEnvironmentContext.teardown opts0 w0ex)
    = DrizzleEnvironmentContext.teardown opts0 w0ex :=
  (teardown_spec opts0
    (DrizzleEnvironmentContext.teardown opts0 w0ex)).2.2.2.2.2 rfl rfl

/-- **C9.** A read of `vitestDrizzle.client` returns the active transactional
handle when one is active without warning; with none active it warns and
returns the not-ready value; and immediately after any
`rollbackTransaction()` the handle has been cleared, so a read warns and
returns not-ready instead of the handle of the rolled-back test. -/
theorem clientGet_spec (w : World Data ε)
    (opts : DrizzleEnvironmentOptions Data ε) (w0 : World Data ε) :
    (∀ tx, w.state.currentTransaction = some tx → clientGet w = (some tx, w))
  ∧ (w.state.currentTransaction = none →
       (clientGet w).1 = none ∧ (clientGet w).2.warnCount = w.warnCount + 1)
  ∧ (clientGet (rollbackTransaction opts w0).2).1 = none
  ∧ (clientGet (rollbackTransaction opts w0).2).2.warnCount
      = (rollbackTransaction opts w0).2.warnCount + 1 := by
  have hcur := (rollbackTransaction_clears opts w0).1
  refine ⟨?_, ?_, ?_, ?_⟩
  · intro tx htx
    unfold clientGet DrizzleEnvironmentContext.getCurrentTransaction
    rw [htx]
  · intro hn
    unfold clientGet DrizzleEnvironmentContext.getCurrentTransaction
    rw [hn]
    exact ⟨rfl, rfl⟩
  · unfold clientGet DrizzleEnvironmentContext.getCurrentTransaction
    rw [hcur]
  · unfold clientGet DrizzleEnvironmentContext.getCurrentTransaction
    rw [hcur]

/-- Witness for C9: the read returns the live handle during a test and the
not-ready value after rollback. -/
theorem clientGet_spec_witness :
    clientGet wOpenEx = (some 0, wOpenEx)
  ∧ (clientGet (rollbackTransaction opts0 wOpenEx).2).1 = none :=
  ⟨(clientGet_spec wOpenEx opts0 wOpenEx).1 0 rfl,
   (clientGet_spec wOpenEx opts0 wOpenEx).2.2.1⟩

/-- **C10.** From a state with no transaction open (all three per-test fields
absent) `rollbackTransaction()` resolves without error and without any
effect — in particular it invokes neither the cleanup routine nor any
trigger, as the world is left literally unchanged — and consequently a
second consecutive `rollbackTransaction()` after any first one has no
additional effect. -/
theorem rollbackTransaction_noop_idempotent
    (opts : DrizzleEnvironmentOptions Data ε) (w : World Data ε)
    (h1 : w.state.currentTransaction = none)
    (h2 : w.state.transactionPromise = none)
    (h3 : w.state.resolveTransaction = none) :
    rollbackTransaction opts w = (.ok (), w)
  ∧ ∀ w' : World Data ε,
      rollbackTransaction opts (rollbackTransaction opts w').2
        = (.ok (), (rollbackTransaction opts w').2) := by
  refine ⟨rollbackTransaction_closed_noop h1 h2 h3, fun w' => ?_⟩
  obtain ⟨a, b, c⟩ := rollbackTransaction_clears opts w'
  exact rollbackTransaction_closed_noop a b c

/-- Witness for C10 on the concrete closed state after `setup()`. -/
theorem rollbackTransaction_noop_idempotent_witness :
    rollbackTransaction opts0 w0ex = (.ok (), w0ex) :=
  (rollbackTransaction_noop_idempotent opts0 w0ex rfl rfl rfl).1

end Claims

end VitestDrizzle
